import Mathlib

/-!
Verification of the HumanEval executor (`docker/python-sandbox/executor.py`).

The executor runs a candidate `code` snippet and a `test` snippet inside one
process, with output capture and a signal-based timeout, and classifies any
failure.  The embedding keeps the executor's own control flow (namespace
construction, order of the two `exec` calls, the `except` chain, the `finally`
block, the stdin driver) and abstracts the Python runtime behind an oracle
`PySem`: the behaviour of one `exec` call is a value of `EvalResult`, recording
what the call wrote to the redirected streams and whether it returned or
raised.  Claims are proved for every oracle, i.e. for every possible behaviour
of the executed snippets.
-/

namespace PySandbox

/-- An exception as observed by the handler chains.  The three flags record
whether the exception is an instance of the built-in classes `SyntaxError`,
`TimeoutError` and `AssertionError` respectively (every modelled exception is
an instance of the catch-all `Exception`); `msg` is `str(e)` and `traceback`
the text of `traceback.format_exc()`. -/
structure PyExc where
  isSyntaxError : Bool
  isTimeoutError : Bool
  isAssertionError : Bool
  msg : String
  traceback : String
  deriving Repr, DecidableEq

/-- The timeout limit: `TIMEOUT_SECONDS = 30`. -/
def TIMEOUT_SECONDS : Nat := 30

/-- The exception raised by `timeout_handler`:
`TimeoutError("Execution timed out")`.  `tb` is whatever traceback text the
runtime attaches at the point of interruption. -/
def timeout_handler_exc (tb : String) : PyExc :=
  { isSyntaxError := false, isTimeoutError := true, isAssertionError := false,
    msg := "Execution timed out", traceback := tb }

/-- A `SyntaxError` produced by a parse failure of supplied source, carrying the
language-specific description `m`. -/
def parse_failure_exc (m tb : String) : PyExc :=
  { isSyntaxError := true, isTimeoutError := false, isAssertionError := false,
    msg := m, traceback := tb }

/-- The `AssertionError` raised by a failing `assert`, with message `m`
(`m = ""` when the assertion carried no message). -/
def assert_failure_exc (m tb : String) : PyExc :=
  { isSyntaxError := false, isTimeoutError := false, isAssertionError := true,
    msg := m, traceback := tb }

/-- A Python namespace: the dict handed to `exec`, a finite map from names to
values, the values drawn from an abstract type `V`. -/
abbrev PyNs (V : Type) := List (String × V)

/-- Outcome of one `exec` call: a normal return leaving namespace `ns`, or an
exception. -/
inductive ExecOutcome (V : Type) where
  | ok (ns : PyNs V)
  | raised (e : PyExc)
  deriving Repr, DecidableEq

/-- What one `exec` call does under the stream redirection: the text it writes
to the redirected stdout and stderr, and its outcome. -/
structure EvalResult (V : Type) where
  toStdout : String
  toStderr : String
  outcome : ExecOutcome V
  deriving Repr, DecidableEq

/-- The Python runtime the executor calls into: `builtinsVal` is the value
`__builtins__`, and `run ns src` is the behaviour of `exec(src, ns)`.  `α` is
the type of the object handed to `exec`: strings inside `execute_code`,
arbitrary JSON-decoded values when the driver forwards request fields. -/
structure PySem (V α : Type) where
  builtinsVal : V
  run : PyNs V → α → EvalResult V

/-- The result dict of `execute_code`, with its five keys. -/
structure ExecResult where
  passed : Bool
  error : Option String
  error_type : Option String
  output : String
  test_output : String
  deriving Repr, DecidableEq

/-- The initial result dict built at the top of `execute_code`. -/
def initResult : ExecResult :=
  { passed := false, error := none, error_type := none, output := "", test_output := "" }

/-- The `except` chain of `execute_code`: clauses are tried in source order,
`SyntaxError`, then `TimeoutError`, then `AssertionError`, then the catch-all
`Exception`; the first clause whose class the exception is an instance of
handles it.  The assertion clause uses the fallback "Assertion failed" when
`str(e)` is empty; the catch-all stores the full traceback. -/
def handleExc (e : PyExc) (r : ExecResult) : ExecResult :=
  if e.isSyntaxError then
    { r with error := some e.msg, error_type := some "syntax" }
  else if e.isTimeoutError then
    { r with error := some e.msg, error_type := some "timeout" }
  else if e.isAssertionError then
    { r with error := some (if e.msg = "" then "Assertion failed" else e.msg),
             error_type := some "assertion" }
  else
    { r with error := some e.traceback, error_type := some "runtime" }

/-- What the `try` body of `execute_code` produces: the contents of the two
capture buffers when the body is left, the exception escaping it (if any), and
the `exec` invocations performed, each paired with the namespace it ran in. -/
structure TryOutcome (V α : Type) where
  outBuf : String
  errBuf : String
  exc : Option PyExc
  calls : List (PyNs V × α)

/-- The `try` body of `execute_code`: build the fresh namespace seeded only with
`__builtins__`, run `code` in it, and only if that returned normally run
`test_code` in the namespace it left behind.  The capture buffers accumulate
across both calls. -/
def tryBody {V α : Type} (sem : PySem V α) (code test_code : α) : TryOutcome V α :=
  let ns0 : PyNs V := [("__builtins__", sem.builtinsVal)]
  let r1 := sem.run ns0 code
  match r1.outcome with
  | .raised e =>
    { outBuf := r1.toStdout, errBuf := r1.toStderr, exc := some e,
      calls := [(ns0, code)] }
  | .ok ns1 =>
    let r2 := sem.run ns1 test_code
    { outBuf := r1.toStdout ++ r2.toStdout,
      errBuf := r1.toStderr ++ r2.toStderr,
      exc := match r2.outcome with | .ok _ => none | .raised e => some e,
      calls := [(ns0, code), (ns1, test_code)] }

/-- Everything observable about one call to `execute_code`: the returned dict,
the arguments of the `signal.alarm` calls made in order, and the `exec`
invocations performed. -/
structure ExecRun (V α : Type) where
  result : ExecResult
  alarmCalls : List Nat
  calls : List (PyNs V × α)

/-- `execute_code(code, test_code)`.  `hasAlarm` is `hasattr(signal, "SIGALRM")`:
when it is false both `signal` blocks are skipped.  The alarm is armed with
`TIMEOUT_SECONDS` before the `try` body; on success the result takes
`passed := true` and `output` from the stdout buffer; an escaping exception is
classified by the handler chain, leaving `output` at its initial `""`; the
`finally` block disarms the alarm (`signal.alarm(0)`) and overwrites
`test_output` with the stderr buffer on every path. -/
def execute_code {V α : Type} (sem : PySem V α) (hasAlarm : Bool)
    (code test_code : α) : ExecRun V α :=
  let body := tryBody sem code test_code
  let afterTry : ExecResult :=
    match body.exc with
    | none => { initResult with passed := true, output := body.outBuf }
    | some e => handleExc e initResult
  { result := { afterTry with test_output := body.errBuf },
    alarmCalls := (if hasAlarm then [TIMEOUT_SECONDS] else [])
      ++ (if hasAlarm then [0] else []),
    calls := body.calls }

/-- The four categories of the spec's error-classification table, in no
particular order. -/
inductive ErrCategory where
  | parseFailure
  | timedOut
  | assertFailed
  | runtimeOther
  deriving Repr, DecidableEq

/-- Following the spec's table: whether an error condition falls under a
category.  `runtimeOther` is the catch-all "any other uncaught error". -/
def specCategoryApplies : ErrCategory → PyExc → Bool
  | .parseFailure, e => e.isSyntaxError
  | .timedOut, e => e.isTimeoutError
  | .assertFailed, e => e.isAssertionError
  | .runtimeOther, _ => true

/-- Following the spec's table: the `error_type` tag of each category. -/
def specTag : ErrCategory → String
  | .parseFailure => "syntax"
  | .timedOut => "timeout"
  | .assertFailed => "assertion"
  | .runtimeOther => "runtime"

/-- Following the spec's table: the `error` message of each category. -/
def specMessage : ErrCategory → PyExc → String
  | .parseFailure, e => e.msg
  | .timedOut, e => e.msg
  | .assertFailed, e => if e.msg = "" then "Assertion failed" else e.msg
  | .runtimeOther, e => e.traceback

/-- The spec's priority order over the categories: most specific first. -/
def specPriorityOrder : List ErrCategory :=
  [.parseFailure, .timedOut, .assertFailed, .runtimeOther]

/-- Following the spec's words "first matching category wins": the first
category of the priority list that applies to the exception. -/
def specClassify (e : PyExc) : Option ErrCategory :=
  specPriorityOrder.find? (fun c => specCategoryApplies c e)

/-- A decoded JSON value, as `json.loads` returns it. -/
inductive Json where
  | null
  | bool (b : Bool)
  | num (n : Int)
  | str (s : String)
  | arr (xs : List Json)
  | obj (fields : List (String × Json))
  deriving Repr

/-- `dict.get(key, default)` on the field list of a decoded JSON object. -/
def getField (fields : List (String × Json)) (key : String) (dflt : Json) : Json :=
  match fields.find? (fun kv => kv.fst == key) with
  | some kv => kv.snd
  | none => dflt

/-- The Python runtime type name of a decoded JSON value, as it appears in the
message of the `AttributeError` raised by calling `.get` on a non-dict. -/
def Json.pyTypeName : Json → String
  | .null => "NoneType"
  | .bool _ => "bool"
  | .num _ => "int"
  | .str _ => "str"
  | .arr _ => "list"
  | .obj _ => "dict"

/-- A single-quote character, as used in Python error messages. -/
def quoteStr : String := String.mk ['\'']

/-- The message of the `AttributeError` raised by `value.get(...)` when `value`
is not a dict: `str(e)` of that error. -/
def attrErrMsg (j : Json) : String :=
  quoteStr ++ j.pyTypeName ++ quoteStr ++ " object has no attribute "
    ++ quoteStr ++ "get" ++ quoteStr

/-- `json.dumps(result)` for an executor result: one JSON object listing the
five keys in dict insertion order. -/
def ExecResult.toJson (r : ExecResult) : List (String × Json) :=
  [("passed", .bool r.passed),
   ("error", match r.error with | none => .null | some s => .str s),
   ("error_type", match r.error_type with | none => .null | some s => .str s),
   ("output", .str r.output),
   ("test_output", .str r.test_output)]

/-- Lookup of a key in an emitted JSON object. -/
def lookupField (fields : List (String × Json)) (key : String) : Option Json :=
  match fields.find? (fun kv => kv.fst == key) with
  | some kv => some kv.snd
  | none => none

/-- `main()`: read stdin, decode it with `loads` (the behaviour of
`json.loads`, returning the decoded value or the parser's error detail),
extract the `code` and `test` fields with default `""`, run `execute_code` and
print one JSON object.  A `json.JSONDecodeError` yields the three-field
`"input"` response; calling `.get` on a decoded value that is not a dict raises
an `AttributeError`, which the driver's catch-all `except Exception` turns into
the three-field `"executor"` response.  The returned object is the single line
printed to stdout. -/
def main {V : Type} (loads : String → Except String Json) (sem : PySem V Json)
    (hasAlarm : Bool) (stdin : String) : List (String × Json) :=
  match loads stdin with
  | .error msg =>
    [("passed", .bool false),
     ("error", .str ("Invalid JSON input: " ++ msg)),
     ("error_type", .str "input")]
  | .ok input_data =>
    match input_data with
    | .obj fields =>
      let code := getField fields "code" (.str "")
      let test := getField fields "test" (.str "")
      (execute_code sem hasAlarm code test).result.toJson
    | other =>
      [("passed", .bool false),
       ("error", .str (attrErrMsg other)),
       ("error_type", .str "executor")]

/-- A runtime for concrete checks: every snippet returns normally, echoing its
source to stdout and writing "!" to stderr, leaving the namespace unchanged. -/
def echoSem : PySem Unit String :=
  { builtinsVal := (),
    run := fun ns src => { toStdout := src, toStderr := "!", outcome := .ok ns } }

/-- A runtime for concrete checks: every `exec` raises `e`, after writing
nothing to stdout and "E" to stderr. -/
def raiseSem (e : PyExc) : PySem Unit String :=
  { builtinsVal := (),
    run := fun _ _ => { toStdout := "", toStderr := "E", outcome := .raised e } }

/-- A JSON reader for concrete checks that always reports the parse failure
`detail`. -/
def failLoads (detail : String) : String → Except String Json :=
  fun _ => .error detail

/-- A JSON reader for concrete checks that always returns the value `j`. -/
def constLoads (j : Json) : String → Except String Json :=
  fun _ => .ok j

/-- A runtime over JSON snippets for concrete driver checks: every `exec`
returns normally and writes nothing. -/
def echoJsonSem : PySem Unit Json :=
  { builtinsVal := (),
    run := fun ns _ => { toStdout := "", toStderr := "", outcome := .ok ns } }

end PySandbox

namespace PySandbox

/-- C1: when evaluating `code` in the fresh namespace and then `test` in the
namespace it leaves behind both complete without raising, `execute_code`
returns `passed = true`, `error = none`, `error_type = none`, and `output`
equal to the stdout text written by the two snippets combined. -/
theorem C1_success_result {V α : Type} (sem : PySem V α) (hasAlarm : Bool)
    (code test_code : α) (so1 se1 so2 se2 : String) (ns1 ns2 : PyNs V)
    (h1 : sem.run [("__builtins__", sem.builtinsVal)] code = ⟨so1, se1, .ok ns1⟩)
    (h2 : sem.run ns1 test_code = ⟨so2, se2, .ok ns2⟩) :
    (execute_code sem hasAlarm code test_code).result =
      { passed := true, error := none, error_type := none,
        output := so1 ++ so2, test_output := se1 ++ se2 } := by
  simp [execute_code, tryBody, h1, h2, initResult]

/-- Concrete check of C1: `echoSem` runs `"c"` then `"t"` without raising. -/
theorem C1_success_result_witness :
    (execute_code echoSem true "c" "t").result =
      { passed := true, error := none, error_type := none,
        output := "c" ++ "t", test_output := "!" ++ "!" } :=
  C1_success_result echoSem true "c" "t" "c" "!" "t" "!"
    [("__builtins__", ())] [("__builtins__", ())] rfl rfl

/-- C2: the handler chain classifies by the first matching category of the
spec's priority order: some category applying to the exception is always
found, every category strictly before it in the order does not apply, and the
handler installs exactly that category's tag and message on the result. -/
theorem C2_first_match_classification (e : PyExc) (r : ExecResult) :
    ∃ c : ErrCategory, ∃ pre post : List ErrCategory,
      specPriorityOrder = pre ++ c :: post ∧
      specCategoryApplies c e = true ∧
      (∀ c2 ∈ pre, specCategoryApplies c2 e = false) ∧
      specClassify e = some c ∧
      handleExc e r =
        { r with error := some (specMessage c e),
                 error_type := some (specTag c) } := by
  rcases e with ⟨s, t, a, m, tb⟩
  cases s with
  | true =>
    exact ⟨.parseFailure, [], [.timedOut, .assertFailed, .runtimeOther], rfl, rfl,
      by simp, by simp [specClassify, specPriorityOrder, specCategoryApplies],
      by simp [handleExc, specMessage, specTag]⟩
  | false =>
    cases t with
    | true =>
      exact ⟨.timedOut, [.parseFailure], [.assertFailed, .runtimeOther], rfl, rfl,
        by simp [specCategoryApplies],
        by simp [specClassify, specPriorityOrder, specCategoryApplies],
        by simp [handleExc, specMessage, specTag]⟩
    | false =>
      cases a with
      | true =>
        exact ⟨.assertFailed, [.parseFailure, .timedOut], [.runtimeOther], rfl, rfl,
          by simp [specCategoryApplies],
          by simp [specClassify, specPriorityOrder, specCategoryApplies],
          by simp [handleExc, specMessage, specTag]⟩
      | false =>
        exact ⟨.runtimeOther, [.parseFailure, .timedOut, .assertFailed], [], rfl, rfl,
          by simp [specCategoryApplies],
          by simp [specClassify, specPriorityOrder, specCategoryApplies],
          by simp [handleExc, specMessage, specTag]⟩

/-- C3: if the 30-second alarm fires during evaluation — that is, the exception
raised by `timeout_handler` escapes the try body — the result has
`passed = false`, `error_type = "timeout"` and the fixed message
"Execution timed out"; and on a platform without `SIGALRM` support no
`signal.alarm` call is made at all. -/
theorem C3_timeout_result {V α : Type} (sem : PySem V α) (hasAlarm : Bool)
    (code test_code : α) (tb : String)
    (h : (tryBody sem code test_code).exc = some (timeout_handler_exc tb)) :
    ((execute_code sem hasAlarm code test_code).result.passed = false ∧
     (execute_code sem hasAlarm code test_code).result.error_type = some "timeout" ∧
     (execute_code sem hasAlarm code test_code).result.error = some "Execution timed out") ∧
    (execute_code sem false code test_code).alarmCalls = [] := by
  constructor
  · refine ⟨?_, ?_, ?_⟩ <;>
      simp [execute_code, h, handleExc, timeout_handler_exc, initResult]
  · simp [execute_code]

/-- Concrete check of C3: a run whose first `exec` is interrupted by the
timeout exception. -/
theorem C3_timeout_result_witness :
    (((execute_code (raiseSem (timeout_handler_exc "tb")) true "c" "t").result.passed = false ∧
      (execute_code (raiseSem (timeout_handler_exc "tb")) true "c" "t").result.error_type = some "timeout" ∧
      (execute_code (raiseSem (timeout_handler_exc "tb")) true "c" "t").result.error = some "Execution timed out") ∧
     (execute_code (raiseSem (timeout_handler_exc "tb")) false "c" "t").alarmCalls = []) :=
  C3_timeout_result (raiseSem (timeout_handler_exc "tb")) true "c" "t" "tb" rfl

/-- C4: on the primary path exactly one of `passed = true` and "`error_type`
populated" holds, and a populated `error_type` is one of the four executor
tags. -/
theorem C4_passed_errortype_dichotomy {V α : Type} (sem : PySem V α)
    (hasAlarm : Bool) (code test_code : α) :
    ((execute_code sem hasAlarm code test_code).result.passed = true ↔
      (execute_code sem hasAlarm code test_code).result.error_type = none) ∧
    ∀ s, (execute_code sem hasAlarm code test_code).result.error_type = some s →
      s ∈ (["syntax", "timeout", "assertion", "runtime"] : List String) := by
  cases h : (tryBody sem code test_code).exc with
  | none => simp [execute_code, h, initResult]
  | some e =>
    rcases e with ⟨s, t, a, m, tb⟩
    cases s <;> cases t <;> cases a <;>
      simp [execute_code, h, handleExc, initResult]

/-- C5: the guaranteed-cleanup step runs on every exit path: with alarm
support the `signal.alarm` calls are exactly arming with 30 and disarming
with 0, without it there are none; and `test_output` always carries the
captured stderr buffer contents, also on failing runs. -/
theorem C5_cleanup_always {V α : Type} (sem : PySem V α) (hasAlarm : Bool)
    (code test_code : α) :
    (execute_code sem hasAlarm code test_code).alarmCalls
        = (if hasAlarm then [TIMEOUT_SECONDS, 0] else []) ∧
    (execute_code sem hasAlarm code test_code).result.test_output
        = (tryBody sem code test_code).errBuf := by
  cases hasAlarm <;>
    cases h : (tryBody sem code test_code).exc <;>
      simp [execute_code, h]

/-- C6: `error_type = "syntax"` exactly when the exception escaping the try
body is a `SyntaxError` — a parse failure of the supplied source — and the
`error` message is then the language-specific description `str(e)`. -/
theorem C6_syntax_iff_parse_failure {V α : Type} (sem : PySem V α)
    (hasAlarm : Bool) (code test_code : α) :
    ((execute_code sem hasAlarm code test_code).result.error_type = some "syntax" ↔
      ∃ e, (tryBody sem code test_code).exc = some e ∧ e.isSyntaxError = true) ∧
    ∀ e, (tryBody sem code test_code).exc = some e → e.isSyntaxError = true →
      (execute_code sem hasAlarm code test_code).result.error = some e.msg := by
  cases h : (tryBody sem code test_code).exc with
  | none => simp [execute_code, h, initResult]
  | some e =>
    rcases e with ⟨s, t, a, m, tb⟩
    cases s <;> cases t <;> cases a <;>
      simp [execute_code, h, handleExc, initResult]

/-- C7: a failing assertion gives `passed = false`,
`error_type = "assertion"`, and `error` the assertion's own message, or the
fixed fallback "Assertion failed" when the assertion carried no message. -/
theorem C7_assertion_message {V α : Type} (sem : PySem V α) (hasAlarm : Bool)
    (code test_code : α) (m tb : String)
    (h : (tryBody sem code test_code).exc = some (assert_failure_exc m tb)) :
    (execute_code sem hasAlarm code test_code).result.passed = false ∧
    (execute_code sem hasAlarm code test_code).result.error_type = some "assertion" ∧
    (execute_code sem hasAlarm code test_code).result.error
      = some (if m = "" then "Assertion failed" else m) := by
  refine ⟨?_, ?_, ?_⟩ <;>
    simp [execute_code, h, handleExc, assert_failure_exc, initResult]

/-- Concrete check of C7: an assertion that carried no message falls back to
"Assertion failed". -/
theorem C7_assertion_message_witness :
    ((execute_code (raiseSem (assert_failure_exc "" "tb")) true "c" "t").result.passed = false ∧
     (execute_code (raiseSem (assert_failure_exc "" "tb")) true "c" "t").result.error_type = some "assertion" ∧
     (execute_code (raiseSem (assert_failure_exc "" "tb")) true "c" "t").result.error
       = some (if "" = "" then "Assertion failed" else "")) :=
  C7_assertion_message (raiseSem (assert_failure_exc "" "tb")) true "c" "t" "" "tb" rfl

/-- C8: the first `exec` call is always `code` in the fresh namespace holding
only `__builtins__`; when it raises, no further `exec` is made (the test is
skipped entirely); when it returns normally leaving `ns1`, the only other
`exec` call is `test_code` in that same namespace `ns1`. -/
theorem C8_order_and_namespace {V α : Type} (sem : PySem V α) (hasAlarm : Bool)
    (code test_code : α) :
    (∀ e, (sem.run [("__builtins__", sem.builtinsVal)] code).outcome = .raised e →
      (execute_code sem hasAlarm code test_code).calls
        = [([("__builtins__", sem.builtinsVal)], code)]) ∧
    (∀ ns1, (sem.run [("__builtins__", sem.builtinsVal)] code).outcome = .ok ns1 →
      (execute_code sem hasAlarm code test_code).calls
        = [([("__builtins__", sem.builtinsVal)], code), (ns1, test_code)]) := by
  constructor
  · intro e he
    simp [execute_code, tryBody, he]
  · intro ns1 hns
    simp [execute_code, tryBody, hns]

/-- C9: a stdin payload that is not well-formed JSON makes the driver emit one
JSON object with `passed = false`, `error_type = "input"` and message
"Invalid JSON input: " followed by the parser detail, with no `output` and no
`test_output` field. -/
theorem C9_invalid_json {V : Type} (loads : String → Except String Json)
    (sem : PySem V Json) (hasAlarm : Bool) (stdin detail : String)
    (h : loads stdin = .error detail) :
    lookupField (main loads sem hasAlarm stdin) "passed" = some (.bool false) ∧
    lookupField (main loads sem hasAlarm stdin) "error_type" = some (.str "input") ∧
    lookupField (main loads sem hasAlarm stdin) "error"
      = some (.str ("Invalid JSON input: " ++ detail)) ∧
    lookupField (main loads sem hasAlarm stdin) "output" = none ∧
    lookupField (main loads sem hasAlarm stdin) "test_output" = none := by
  refine ⟨?_, ?_, ?_, ?_, ?_⟩ <;> simp [main, h, lookupField]

/-- Concrete check of C9 with a reader that fails with a fixed detail. -/
theorem C9_invalid_json_witness :
    (lookupField (main (failLoads "boom") echoJsonSem true "not json") "passed"
       = some (.bool false) ∧
     lookupField (main (failLoads "boom") echoJsonSem true "not json") "error_type"
       = some (.str "input") ∧
     lookupField (main (failLoads "boom") echoJsonSem true "not json") "error"
       = some (.str ("Invalid JSON input: " ++ "boom")) ∧
     lookupField (main (failLoads "boom") echoJsonSem true "not json") "output" = none ∧
     lookupField (main (failLoads "boom") echoJsonSem true "not json") "test_output" = none) :=
  C9_invalid_json (failLoads "boom") echoJsonSem true "not json" "boom" rfl

/-- C10: well-formed JSON whose top-level value is not an object makes the
driver's field lookup raise, so it answers with `passed = false` and
`error_type = "executor"` rather than "input"; and only an object reaches the
executor, its missing `code` and `test` fields defaulted to the empty
string. -/
theorem C10_non_object_input {V : Type} (loads : String → Except String Json)
    (sem : PySem V Json) (hasAlarm : Bool) (stdin : String) (j : Json)
    (hj : loads stdin = .ok j) (hno : ∀ fields, j ≠ .obj fields) :
    (lookupField (main loads sem hasAlarm stdin) "passed" = some (.bool false) ∧
     lookupField (main loads sem hasAlarm stdin) "error_type" = some (.str "executor")) ∧
    ∀ stdin2, loads stdin2 = .ok (.obj []) →
      main loads sem hasAlarm stdin2
        = ((execute_code sem hasAlarm (.str "") (.str "")).result).toJson := by
  constructor
  · cases j with
    | obj fields => exact absurd rfl (hno fields)
    | null => simp [main, hj, lookupField]
    | bool b => simp [main, hj, lookupField]
    | num n => simp [main, hj, lookupField]
    | str s => simp [main, hj, lookupField]
    | arr xs => simp [main, hj, lookupField]
  · intro stdin2 h2
    simp [main, h2, getField]

/-- Concrete check of C10 with a reader that returns a JSON array. -/
theorem C10_non_object_input_witness :
    ((lookupField (main (constLoads (.arr [])) echoJsonSem true "[]") "passed"
        = some (.bool false) ∧
      lookupField (main (constLoads (.arr [])) echoJsonSem true "[]") "error_type"
        = some (.str "executor")) ∧
     ∀ stdin2, constLoads (.arr []) stdin2 = .ok (.obj []) →
       main (constLoads (.arr [])) echoJsonSem true stdin2
         = ((execute_code echoJsonSem true (.str "") (.str "")).result).toJson) :=
  C10_non_object_input (constLoads (.arr [])) echoJsonSem true "[]" (.arr []) rfl
    (fun _ h => Json.noConfusion h)

end PySandbox
